import Mathlib

/-!
Verification of the Lexiscan-Lite trial orchestration state machine and
metrics aggregation engine (src/js/data.js, src/js/game.js,
src/js/audio.js), as a shallow embedding.

Modelling conventions:
* `Date.now()` readings are passed in as explicit `now` parameters,
  since the JavaScript methods read the machine clock; they are modelled
  as integers, which is exact (`Date.now()` returns integer
  milliseconds), so timestamps and reaction times are `Int`.
* Derived statistics are exact rationals; where an expression of the
  source can evaluate to `NaN` or `Infinity` (the coefficient of
  variation), the dedicated type `JsNum` is used, and `Math.sqrt` is
  modelled by `Real.sqrt`.
* Nullable JavaScript values are `Option`; JavaScript falsy coercions
  (`x || d`, `null` coerced to `0` in arithmetic) are modelled
  explicitly at each site where the source relies on them.
* Async control flow is modelled by explicit outcome parameters: a
  promise that may never settle becomes an `Option`-valued result, an
  exception becomes `Except.error`.
* Purely presentational fields of the session object (the generated
  session id string, ISO date strings, the `fontComparison` slot) take
  part in no claimed property and are omitted from the state.
-/

namespace Lexiscan

/-- Trial context created by `DataManager.startTrial` (data.js:39-47):
`{ trialIndex, target, distractors, presentedAt }`. -/
structure TrialData where
  trialIndex : Nat
  target : String
  distractors : List String
  presentedAt : ℤ
deriving DecidableEq

/-- A finalized trial record as built by `DataManager.recordResponse`
(data.js:49-73): the spread of the trial context plus `selected`,
`isCorrect`, `reactionTime`, `wasTimeout`, `respondedAt`. -/
structure Trial where
  trialIndex : Nat
  target : String
  distractors : List String
  presentedAt : ℤ
  selected : Option String
  isCorrect : Bool
  reactionTime : Option ℤ
  wasTimeout : Bool
  respondedAt : ℤ
deriving DecidableEq

/-- Per-task summary computed in `DataManager.endTask` (data.js:86-96). -/
structure TaskSummary where
  totalTrials : Nat
  completedTrials : Nat
  correctCount : Nat
  accuracy : ℚ
  timeouts : Nat
  meanRT : Option ℚ
  medianRT : Option ℚ
  rtStdDev : Option ℝ
  duration : ℚ

/-- The per-task record created by `DataManager.startTask`
(data.js:26-37) and closed by `endTask`. -/
structure TaskState where
  taskId : String
  taskType : String
  font : String
  startTime : ℤ
  endTime : Option ℤ
  trials : List Trial
  summary : Option TaskSummary

/-- The session-level data of data.js:8-17.  The confusion matrix is a
JavaScript object with string keys; since all keys have the shape
`"a->b"` (never integer-like), JavaScript preserves insertion order, so
an association list is a faithful model. -/
structure SessionData where
  tasks : List TaskState
  confusionMatrix : List (String × Nat)

/-- The mutable state of the `DataManager` class (data.js:6-20):
`sessionData`, `currentTask` (initially null) and `itemStartTime`
(initially null). -/
structure DataManager where
  sessionData : SessionData
  currentTask : Option TaskState
  itemStartTime : Option ℤ

/-- The `DataManager` constructor state: empty task list, empty
confusion matrix, no open task, no item timing. -/
def DataManager.init : DataManager :=
  { sessionData := { tasks := [], confusionMatrix := [] },
    currentTask := none, itemStartTime := none }

/-- JavaScript `x || d` for an optional string: `undefined` and the
empty string are falsy and yield the default. -/
def jsOr (x : Option String) (d : String) : String :=
  match x with
  | none => d
  | some s => if s = "" then d else s

/-- JavaScript `obj[key] = (obj[key] || 0) + 1` on an
insertion-ordered object: update in place if present, append otherwise. -/
def bumpKey : List (String × Nat) → String → List (String × Nat)
  | [], k => [(k, 1)]
  | (k', c) :: rest, k =>
      if k' = k then (k', c + 1) :: rest else (k', c) :: bumpKey rest k

/-- Occurrence count stored for a key in the confusion object, `0` when
the key is absent. -/
def getCount : List (String × Nat) → String → Nat
  | [], _ => 0
  | (k', c) :: rest, k => if k' = k then c else getCount rest k

/-- `DataManager.mean` (data.js:207-209): sum divided by length,
`0` for the empty array. -/
def mean (arr : List ℚ) : ℚ :=
  if 0 < arr.length then arr.sum / (arr.length : ℚ) else 0

/-- `DataManager.median` (data.js:211-216): sort ascending, take the
middle element for odd length, the average of the two middle elements
for even length, `null` for the empty array. -/
def median (arr : List ℚ) : Option ℚ :=
  if arr.length = 0 then none
  else
    let sorted := arr.insertionSort (· ≤ ·)
    let mid := sorted.length / 2
    if sorted.length % 2 ≠ 0 then some (sorted.getD mid 0)
    else some ((sorted.getD (mid - 1) 0 + sorted.getD mid 0) / 2)

/-- `DataManager.stdDev` (data.js:218-223): `null` for fewer than two
samples, otherwise the population standard deviation
`Math.sqrt(mean(squareDiffs))`. -/
noncomputable def stdDev (arr : List ℚ) : Option ℝ :=
  if arr.length < 2 then none
  else
    let m := mean arr
    some (Real.sqrt ((mean (arr.map fun v => (v - m) ^ 2) : ℚ) : ℝ))

/-- `DataManager.startTask` (data.js:26-37): unconditionally assigns a
fresh in-progress task to `this.currentTask`; `font` defaults through
`config.font || 'standard'`. -/
def DataManager.startTask (now : ℤ) (dm : DataManager) (taskId taskType : String)
    (font : Option String) : DataManager :=
  let fresh : TaskState :=
    { taskId := taskId, taskType := taskType, font := jsOr font "standard",
      startTime := now, endTime := none, trials := [], summary := none }
  { dm with currentTask := some fresh }

/-- `DataManager.startTrial` (data.js:39-47): records
`this.itemStartTime = Date.now()` and returns the trial context. -/
def DataManager.startTrial (now : ℤ) (dm : DataManager) (target : String)
    (distractors : List String) (trialIndex : Nat) : DataManager × TrialData :=
  ({ dm with itemStartTime := some now },
   { trialIndex := trialIndex, target := target, distractors := distractors,
     presentedAt := now })

/-- The trial record built inside `recordResponse` (data.js:52-62):
`reactionTime = wasTimeout ? null : (Date.now() - this.itemStartTime)`
(a null `itemStartTime` coerces to `0`),
`isCorrect = selected === trialData.target` (false when `selected` is
null, string equality otherwise). -/
def mkTrial (now : ℤ) (itemStartTime : Option ℤ) (td : TrialData)
    (selected : Option String) (wasTimeout : Bool) : Trial :=
  { trialIndex := td.trialIndex, target := td.target,
    distractors := td.distractors, presentedAt := td.presentedAt,
    selected := selected,
    isCorrect := decide (selected = some td.target),
    reactionTime := if wasTimeout then none else some (now - itemStartTime.getD 0),
    wasTimeout := wasTimeout,
    respondedAt := now }

/-- `DataManager.recordResponse` (data.js:49-73): a silent no-op when no
task is open; otherwise appends the finalized trial to the open task and,
for an incorrect non-null selection, increments the confusion entry
keyed by the ordered template string `` `${target}->${selected}` ``. -/
def DataManager.recordResponse (now : ℤ) (dm : DataManager) (td : TrialData)
    (selected : Option String) (wasTimeout : Bool) : DataManager :=
  match dm.currentTask with
  | none => dm
  | some ct =>
      let trial := mkTrial now dm.itemStartTime td selected wasTimeout
      let cm :=
        if trial.isCorrect = false ∧ selected ≠ none then
          bumpKey dm.sessionData.confusionMatrix
            (td.target ++ "->" ++ selected.getD "")
        else dm.sessionData.confusionMatrix
      { dm with
          currentTask := some ({ ct with trials := ct.trials ++ [trial] }),
          sessionData := { dm.sessionData with confusionMatrix := cm } }

/-- The summary block of `DataManager.endTask` (data.js:82-96):
`completed` filters out timeouts, `correct` filters on `isCorrect`,
`reactionTimes` keeps the non-null reaction times of completed trials. -/
noncomputable def DataManager.taskSummary (now : ℤ) (ct : TaskState) : TaskSummary :=
  let trials := ct.trials
  let completed := trials.filter fun t => !t.wasTimeout
  let correct := trials.filter fun t => t.isCorrect
  let reactionTimes : List ℚ :=
    ((completed.map fun t => t.reactionTime).reduceOption).map fun z => (z : ℚ)
  { totalTrials := trials.length,
    completedTrials := completed.length,
    correctCount := correct.length,
    accuracy :=
      if 0 < completed.length then
        ((correct.length : ℚ) / (completed.length : ℚ)) * 100
      else 0,
    timeouts := (trials.filter fun t => t.wasTimeout).length,
    meanRT :=
      if 0 < reactionTimes.length then
        some (reactionTimes.sum / (reactionTimes.length : ℚ))
      else none,
    medianRT := median reactionTimes,
    rtStdDev := stdDev reactionTimes,
    duration := ((now - ct.startTime : ℤ) : ℚ) / 1000 }

/-- `DataManager.endTask` (data.js:75-102): a no-op when no task is
open; otherwise stamps the end time, freezes the summary, appends the
closed task to `sessionData.tasks` and clears the open-task slot.  (The
source additionally returns the completed task, which is the appended
list element.) -/
noncomputable def DataManager.endTask (now : ℤ) (dm : DataManager) : DataManager :=
  match dm.currentTask with
  | none => dm
  | some ct =>
      let ct' : TaskState :=
        { ct with endTime := some now,
                  summary := some (DataManager.taskSummary now ct) }
      { dm with
          sessionData := { dm.sessionData with
                             tasks := dm.sessionData.tasks ++ [ct'] },
          currentTask := none }

/-- The pooled reaction-time list of
`DataManager.calculateAttentionStability` (data.js:106-108): over the
closed tasks, the non-null reaction times of their trials. -/
def pooledRTs (sd : SessionData) : List ℤ :=
  sd.tasks.flatMap fun t =>
    (t.trials.filter fun tr => tr.reactionTime.isSome).filterMap fun tr =>
      tr.reactionTime

/-- The pooled reaction times as rationals, for the statistics
utilities. -/
def pooledRTsQ (sd : SessionData) : List ℚ :=
  (pooledRTs sd).map fun z => (z : ℚ)

/-- A JavaScript number that may be `NaN` or an infinity. -/
inductive JsNum where
  | nan
  | inf
  | ninf
  | num (x : ℝ)

/-- JavaScript division `a / b` where `a` may be `null` (data.js:111
divides the possibly-null `stdDev` result by the mean): `null` coerces
to `0`; division by zero yields `NaN` for a zero numerator and a signed
infinity otherwise. -/
noncomputable def jsDivNullable (a : Option ℝ) (b : ℝ) : JsNum :=
  let x := a.getD 0
  if b = 0 then
    if x = 0 then JsNum.nan else if 0 < x then JsNum.inf else JsNum.ninf
  else JsNum.num (x / b)

/-- Multiplication of a JavaScript number by the positive literal `100`. -/
def jsMul100 : JsNum → JsNum
  | JsNum.nan => JsNum.nan
  | JsNum.inf => JsNum.inf
  | JsNum.ninf => JsNum.ninf
  | JsNum.num x => JsNum.num (x * 100)

/-- Result record of `calculateAttentionStability` (data.js:109-112). -/
structure AttentionStability where
  overallStdDev : Option ℝ
  coefficientOfVariation : Option JsNum

/-- `DataManager.calculateAttentionStability` (data.js:105-113):
`overallStdDev = stdDev(allRTs)` and
`coefficientOfVariation = allRTs.length > 0 ? (stdDev(allRTs) / mean(allRTs)) * 100 : null`. -/
noncomputable def DataManager.calculateAttentionStability (sd : SessionData) :
    AttentionStability :=
  let allRTs := pooledRTsQ sd
  { overallStdDev := stdDev allRTs,
    coefficientOfVariation :=
      if 0 < allRTs.length then
        some (jsMul100 (jsDivNullable (stdDev allRTs) ((mean allRTs : ℚ) : ℝ)))
      else none }

/-- A cell of the CSV detail log, kept structured: the source joins the
cells with commas, which does not affect which value each column shows. -/
inductive Cell where
  | str (s : String)
  | num (z : ℤ)
  | bool (b : Bool)
deriving DecidableEq

/-- The Selected column of the CSV detail log (data.js:188):
`` `${trial.selected || 'TIMEOUT'}` `` — any falsy `selected` (null, or
the empty string) renders as the literal `TIMEOUT`. -/
def selectedCell (t : Trial) : Cell :=
  match t.selected with
  | none => Cell.str "TIMEOUT"
  | some s => if s = "" then Cell.str "TIMEOUT" else Cell.str s

/-- The RT column of the CSV detail log (data.js:190):
`trial.reactionTime || 'N/A'` — any falsy reaction time (null, or `0`)
renders as the literal `N/A`. -/
def rtCell (t : Trial) : Cell :=
  match t.reactionTime with
  | none => Cell.str "N/A"
  | some q => if q = 0 then Cell.str "N/A" else Cell.num q

/-- One row of the CSV detailed trial log (data.js:182-194):
task index + 1, trial index + 1, target, selected-or-TIMEOUT,
correctness, RT-or-N/A, timeout flag. -/
def detailRow (taskIndex trialIndex : Nat) (t : Trial) : List Cell :=
  [Cell.num ((taskIndex : ℤ) + 1), Cell.num ((trialIndex : ℤ) + 1),
   Cell.str t.target, selectedCell t, Cell.bool t.isCorrect, rtCell t,
   Cell.bool t.wasTimeout]

/-- The full detailed trial log: one row per recorded trial of each
closed task, in order (data.js:182-194). -/
def detailRows (sd : SessionData) : List (List Cell) :=
  sd.tasks.enum.flatMap fun ti =>
    ti.2.trials.enum.map fun tri => detailRow ti.1 tri.1 tri.2

/-- An Aggregator call made by the Orchestrator while a task is open:
either `data.startTrial(target, distractors, index)` from a trial
presentation, or `data.recordResponse(trialData, selected, wasTimeout)`
from `handleResponse` (selected value, `false`) / `handleTimeout`
(`null`, `true`). -/
inductive AggEvent where
  | pres (now : ℤ) (target : String) (distractors : List String) (index : Nat)
  | record (now : ℤ) (td : TrialData) (selected : Option String) (wasTimeout : Bool)

/-- The shape of the Orchestrator's `recordResponse` calls
(game.js:301, game.js:316): a timeout is always recorded with the
`null` selection sentinel. -/
def eventOk : AggEvent → Bool
  | AggEvent.record _ _ selected wasTimeout => !wasTimeout || decide (selected = none)
  | AggEvent.pres _ _ _ _ => true

/-- Apply one Aggregator call to the `DataManager` state. -/
def DataManager.applyEvent (dm : DataManager) : AggEvent → DataManager
  | AggEvent.pres now target ds index => (DataManager.startTrial now dm target ds index).1
  | AggEvent.record now td selected wasTimeout =>
      DataManager.recordResponse now dm td selected wasTimeout

/-- Apply a sequence of Aggregator calls in order. -/
def DataManager.applyEvents (dm : DataManager) (evs : List AggEvent) : DataManager :=
  evs.foldl DataManager.applyEvent dm

/-- A recorded trial is only correct if it did not time out; this holds
for every trial the Orchestrator records, because its timeout records
carry the `null` selection sentinel. -/
def trialOk (t : Trial) : Bool := !t.isCorrect || !t.wasTimeout

/-- Which callback of the speech utterance fires, if any
(audio.js:104-105). -/
inductive SpeechEvent where
  | onEnd
  | onError

/-- `AudioManager.speak` (audio.js:87-109): the returned promise is
resolved by `utterance.onend` or by `utterance.onerror`, and by nothing
else — there is no timer racing it.  A promise that settles is `some ()`
at the time its callback fires; if neither callback ever fires the
promise never settles, modelled as `none`. -/
def AudioManager.speakResult (ev : Option SpeechEvent) : Option Unit :=
  ev.map fun _ => ()

/-- The `GameEngine` state fields involved in the claimed properties
(game.js:20-35): the owned `DataManager`, the loaded task's
excluded-from-scoring flag, id, type and trial count (read from
`this.currentTask`), the trial cursor, the current trial context, the
input lock, and whether a trial deadline timer is pending. -/
structure EngineState where
  dm : DataManager
  currentTaskIsWarmup : Bool
  currentTaskId : String
  currentTaskType : String
  taskTrialCount : Nat
  currentTrialIndex : Nat
  currentTrialData : Option TrialData
  inputLocked : Bool
  trialTimeoutPending : Bool

/-- The `GameEngine` constructor state (game.js:21-35). -/
def GameEngine.init : EngineState :=
  { dm := DataManager.init, currentTaskIsWarmup := false, currentTaskId := "",
    currentTaskType := "", taskTrialCount := 0, currentTrialIndex := 0,
    currentTrialData := none, inputLocked := false, trialTimeoutPending := false }

/-- Placeholder trial context: the Orchestrator always presents a trial
(setting `currentTrialData`) before unlocking input, so this default is
never consulted on a path that records data. -/
def defaultTrialData : TrialData :=
  { trialIndex := 0, target := "", distractors := [], presentedAt := 0 }

/-- `GameEngine.startTask` (game.js:106-121): resets the trial cursor
and, unless the loaded task is a warmup, opens a task in the
`DataManager` (no config object is passed, so the font defaults).  The
loaded task's fields are parameters here because the source reads them
from `this.currentTask`. -/
def GameEngine.startTask (now : ℤ) (isWarmup : Bool) (taskId taskType : String)
    (trialCount : Nat) (st : EngineState) : EngineState :=
  { st with
      currentTaskIsWarmup := isWarmup, currentTaskId := taskId,
      currentTaskType := taskType, taskTrialCount := trialCount,
      currentTrialIndex := 0,
      dm := if isWarmup then st.dm
            else DataManager.startTask now st.dm taskId taskType none }

/-- The common tail of the per-type trial runners
(game.js:165-253): `currentTrialData = data.startTrial(...)` (this runs
for warmup tasks too — it only stamps `itemStartTime`), options are
rendered, input is unlocked, and the deadline timer is started. -/
def GameEngine.presentStep (now : ℤ) (target : String) (distractors : List String)
    (st : EngineState) : EngineState :=
  let p := DataManager.startTrial now st.dm target distractors st.currentTrialIndex
  { st with dm := p.1, currentTrialData := some p.2, inputLocked := false,
            trialTimeoutPending := true }

/-- `GameEngine.handleResponse` (game.js:293-307): ignored while input
is locked; otherwise re-locks input, clears the deadline timer, and
records the selection unless the task is a warmup.  (The subsequent
trial advance is scheduled asynchronously; see `EngineEvent.transition`.) -/
def GameEngine.handleResponse (now : ℤ) (selected : String) (st : EngineState) :
    EngineState :=
  if st.inputLocked then st
  else
    { st with
        inputLocked := true, trialTimeoutPending := false,
        dm := if st.currentTaskIsWarmup then st.dm
              else DataManager.recordResponse now st.dm
                     (st.currentTrialData.getD defaultTrialData) (some selected) false }

/-- `GameEngine.handleTimeout` (game.js:309-320): ignored while input is
locked; otherwise re-locks input and records a timeout (the `null`
selection sentinel) unless the task is a warmup.  The deadline timer has
just fired, so none is pending afterwards. -/
def GameEngine.handleTimeout (now : ℤ) (st : EngineState) : EngineState :=
  if st.inputLocked then st
  else
    { st with
        inputLocked := true, trialTimeoutPending := false,
        dm := if st.currentTaskIsWarmup then st.dm
              else DataManager.recordResponse now st.dm
                     (st.currentTrialData.getD defaultTrialData) none true }

/-- An event delivered to the engine while a task runs: a per-type
presentation completing, a click on an option, the deadline timer
firing, or the deferred neutral transition (game.js:322-328) advancing
the trial cursor. -/
inductive EngineEvent where
  | present (now : ℤ) (target : String) (distractors : List String)
  | response (now : ℤ) (selected : String)
  | timeout (now : ℤ)
  | transition

/-- Dispatch one engine event. -/
def GameEngine.step (st : EngineState) : EngineEvent → EngineState
  | EngineEvent.present now target ds => GameEngine.presentStep now target ds st
  | EngineEvent.response now selected => GameEngine.handleResponse now selected st
  | EngineEvent.timeout now => GameEngine.handleTimeout now st
  | EngineEvent.transition => { st with currentTrialIndex := st.currentTrialIndex + 1 }

/-- Run a sequence of engine events in order. -/
def GameEngine.runEvents (st : EngineState) (evs : List EngineEvent) : EngineState :=
  evs.foldl GameEngine.step st

/-- `GameEngine.completeTask` (game.js:344-353): clears any pending
deadline timer and closes the task in the `DataManager` unless it is a
warmup.  (Advancing the task index and re-rendering instructions are
presentational.) -/
noncomputable def GameEngine.completeTask (now : ℤ) (st : EngineState) : EngineState :=
  { st with
      trialTimeoutPending := false,
      dm := if st.currentTaskIsWarmup then st.dm
            else DataManager.endTask now st.dm }

/-- The outcome of the per-type presentation step awaited by `runTrial`
(game.js:148-161): it either completes, handing over the trial's target
and distractors, or it raises an exception (a rendering/adapter
failure), which nothing in `runTrial` catches. -/
inductive PresentOutcome where
  | completed (target : String) (distractors : List String)
  | threw (e : String)

/-- `GameEngine.runTrial` (game.js:134-162): when the trial cursor has
exhausted the task, complete it; otherwise lock input and await the
per-type runner via `switch` — there is no try/catch around it, so a
raised exception escapes `runTrial` as a rejection and neither branch
below it runs. -/
noncomputable def GameEngine.runTrial (now : ℤ) (outcome : PresentOutcome)
    (st : EngineState) : Except String EngineState :=
  if st.taskTrialCount ≤ st.currentTrialIndex then
    Except.ok (GameEngine.completeTask now st)
  else
    match outcome with
    | PresentOutcome.threw e => Except.error e
    | PresentOutcome.completed target ds =>
        Except.ok (GameEngine.presentStep now target ds { st with inputLocked := true })

/-- Fisher-Yates swap step `[arr[i], arr[j]] = [arr[j], arr[i]]`
(game.js:387); both indices are always in range at the call site. -/
def listSwap {α : Type} (l : List α) (i j : Nat) : List α :=
  match l.get? i, l.get? j with
  | some a, some b => (l.set i b).set j a
  | _, _ => l

/-- The loop of `GameEngine.shuffleArray` (game.js:385-388), counting
`i` down to `1`; the oracle `js` supplies the value
`Math.floor(Math.random() * (i + 1))` drawn for each `i`. -/
def shuffleLoop {α : Type} (js : Nat → Nat) : Nat → List α → List α
  | 0, arr => arr
  | i + 1, arr => shuffleLoop js i (listSwap arr (i + 1) (js (i + 1)))

/-- `GameEngine.shuffleArray` (game.js:383-390): copies the input
(`[...array]`, so the argument itself is never mutated — automatic in
this pure embedding) and runs the Fisher-Yates loop over the copy. -/
def shuffleArray {α : Type} (js : Nat → Nat) (array : List α) : List α :=
  shuffleLoop js (array.length - 1) array

/-- The rendered state produced once a phoneme-grapheme presentation
gets past its `await` (game.js:196-204). -/
structure PresentedTrial where
  trialData : TrialData
  options : List String
  inputLocked : Bool
  timeoutStarted : Bool

/-- `GameEngine.runPhonemeGraphemeTrial` (game.js:187-205): awaits
`audio.speak`, and only then starts trial timing, computes the shuffled
option set and opens the timing window.  The `await` is not raced
against any timer, so when the speak promise never settles (`ev = none`)
nothing after it ever runs, modelled as a `none` result. -/
def GameEngine.runPhonemeGraphemeTrial (ev : Option SpeechEvent) (now : ℤ)
    (js : Nat → Nat) (target : String) (distractors : List String) (index : Nat)
    (dm : DataManager) : Option (DataManager × PresentedTrial) :=
  match AudioManager.speakResult ev with
  | none => none
  | some _ =>
      let p := DataManager.startTrial now dm target distractors index
      some (p.1,
        { trialData := p.2,
          options := shuffleArray js (target :: distractors),
          inputLocked := false, timeoutStarted := true })

/-- A reachable `DataManager` state with an open task holding one
recorded trial: start a task, present a trial, record a correct
response. -/
def dmOpenOne : DataManager :=
  DataManager.recordResponse 20
    (DataManager.startTrial 10
      (DataManager.startTask 0 DataManager.init "baseline_literacy" "baseline_literacy" none)
      "the" ["teh", "hte"] 0).1
    { trialIndex := 0, target := "the", distractors := ["teh", "hte"], presentedAt := 10 }
    (some "teh") false

/-- A reachable state in which target `b` was answered with `d` and then
target `d` was answered with `b` (both incorrect, non-timeout). -/
def dmMirrorPair : DataManager :=
  let dm1 := DataManager.startTask 0 DataManager.init "visual_confusable" "visual_discrimination" none
  let dm2 := (DataManager.startTrial 1 dm1 "b" ["d", "p", "q"] 0).1
  let dm3 := DataManager.recordResponse 2 dm2
    { trialIndex := 0, target := "b", distractors := ["d", "p", "q"], presentedAt := 1 }
    (some "d") false
  let dm4 := (DataManager.startTrial 3 dm3 "d" ["b", "q", "p"] 1).1
  DataManager.recordResponse 4 dm4
    { trialIndex := 1, target := "d", distractors := ["b", "q", "p"], presentedAt := 3 }
    (some "b") false

/-- The state of `dmMirrorPair` just before its second response is
recorded. -/
def dmMirrorPairPre : DataManager :=
  let dm1 := DataManager.startTask 0 DataManager.init "visual_confusable"
    "visual_discrimination" none
  let dm2 := (DataManager.startTrial 1 dm1 "b" ["d", "p", "q"] 0).1
  let dm3 := DataManager.recordResponse 2 dm2
    { trialIndex := 0, target := "b", distractors := ["d", "p", "q"], presentedAt := 1 }
    (some "d") false
  (DataManager.startTrial 3 dm3 "d" ["b", "q", "p"] 1).1

/-- A reachable closed session holding a single completed trial whose
reaction time is `500` ms. -/
noncomputable def dmOneSample : DataManager :=
  DataManager.endTask 700
    (DataManager.recordResponse 600
      (DataManager.startTrial 100
        (DataManager.startTask 0 DataManager.init "attention_check" "attention_stability" none)
        "b" ["d", "p", "q"] 0).1
      { trialIndex := 0, target := "b", distractors := ["d", "p", "q"], presentedAt := 100 }
      (some "b") false)

/-- A reachable closed session holding a single completed trial whose
reaction time is `0` ms (the response landed in the same millisecond as
the presentation). -/
noncomputable def dmZeroRT : DataManager :=
  DataManager.endTask 200
    (DataManager.recordResponse 100
      (DataManager.startTrial 100
        (DataManager.startTask 0 DataManager.init "visual_masking" "visual_masking" none)
        "b" ["d", "p"] 0).1
      { trialIndex := 0, target := "b", distractors := ["d", "p"], presentedAt := 100 }
      (some "b") false)

/-- A session literal whose pooled reaction times are `100` and `300`. -/
def sdTwoSamples : SessionData :=
  { tasks :=
      [{ taskId := "t", taskType := "visual_discrimination", font := "standard",
         startTime := 0, endTime := some 400,
         trials :=
           [{ trialIndex := 0, target := "b", distractors := ["d"], presentedAt := 0,
              selected := some "b", isCorrect := true, reactionTime := some 100,
              wasTimeout := false, respondedAt := 100 },
            { trialIndex := 1, target := "d", distractors := ["b"], presentedAt := 200,
              selected := some "d", isCorrect := true, reactionTime := some 300,
              wasTimeout := false, respondedAt := 500 }],
         summary := none }],
    confusionMatrix := [] }

/-- The Orchestrator call sequence of a three-trial task answered
(correct, timeout, incorrect). -/
def evsThree : List AggEvent :=
  [AggEvent.pres 0 "b" ["d"] 0,
   AggEvent.record 10 { trialIndex := 0, target := "b", distractors := ["d"], presentedAt := 0 } (some "b") false,
   AggEvent.pres 20 "d" ["b"] 1,
   AggEvent.record 30 { trialIndex := 1, target := "d", distractors := ["b"], presentedAt := 20 } none true,
   AggEvent.pres 40 "p" ["q"] 2,
   AggEvent.record 50 { trialIndex := 2, target := "p", distractors := ["q"], presentedAt := 40 } (some "q") false]

/-- Bumping a key increments exactly that key's stored count. -/
theorem getCount_bumpKey_self (cm : List (String × Nat)) (k : String) :
    getCount (bumpKey cm k) k = getCount cm k + 1 := by
  induction cm with
  | nil => simp [bumpKey, getCount]
  | cons p rest ih =>
      obtain ⟨k', c⟩ := p
      by_cases h : k' = k <;> simp [bumpKey, getCount, h, ih]

/-- Bumping a key leaves every other key's stored count unchanged. -/
theorem getCount_bumpKey_other (cm : List (String × Nat)) (k k2 : String)
    (h : k2 ≠ k) :
    getCount (bumpKey cm k) k2 = getCount cm k2 := by
  induction cm with
  | nil => simp [bumpKey, getCount, Ne.symm h]
  | cons p rest ih =>
      obtain ⟨k', c⟩ := p
      by_cases hk : k' = k
      · subst hk
        have hne : k' ≠ k2 := fun hh => h (Eq.symm hh)
        simp [bumpKey, getCount, hne]
      · by_cases hk2 : k' = k2 <;> simp [bumpKey, getCount, hk, hk2, ih, h]

/-- Ignoring a response or timeout while input is locked is the
identity on the whole engine state (game.js:294, game.js:310). -/
theorem handle_locked_id (now : ℤ) (selected : String) (st : EngineState)
    (h : st.inputLocked = true) :
    GameEngine.handleResponse now selected st = st
    ∧ GameEngine.handleTimeout now st = st := by
  constructor <;> simp [GameEngine.handleResponse, GameEngine.handleTimeout, h]

/-- Replacing position `k` of a list while consing the element that was
there is a permutation of consing the new element. -/
theorem get_cons_set_perm {α : Type} :
    ∀ (xs : List α) (k : Nat) (x : α) (h : k < xs.length),
      List.Perm (xs.get ⟨k, h⟩ :: xs.set k x) (x :: xs)
  | y :: ys, 0, x, _ => List.Perm.swap x y ys
  | y :: ys, k + 1, x, h => by
      have hk : k < ys.length := by simpa using h
      have s1 : List.Perm (ys.get ⟨k, hk⟩ :: y :: ys.set k x)
          (y :: ys.get ⟨k, hk⟩ :: ys.set k x) := List.Perm.swap _ _ _
      have s2 : List.Perm (y :: ys.get ⟨k, hk⟩ :: ys.set k x) (y :: x :: ys) :=
        (get_cons_set_perm ys k x hk).cons y
      have s3 : List.Perm (y :: x :: ys) (x :: y :: ys) := List.Perm.swap _ _ _
      exact (s1.trans s2).trans s3

/-- Exchanging the elements at two in-range positions of a list is a
permutation. -/
theorem set_set_perm {α : Type} :
    ∀ (l : List α) (i j : Nat) (hi : i < l.length) (hj : j < l.length),
      List.Perm ((l.set i (l.get ⟨j, hj⟩)).set j (l.get ⟨i, hi⟩)) l
  | _ :: _, 0, 0, _, _ => List.Perm.refl _
  | x :: xs, 0, j + 1, _, hj => by
      have hj' : j < xs.length := by simpa using hj
      exact get_cons_set_perm xs j x hj'
  | x :: xs, i + 1, 0, hi, _ => by
      have hi' : i < xs.length := by simpa using hi
      exact get_cons_set_perm xs i x hi'
  | x :: xs, i + 1, j + 1, hi, hj => by
      have hi' : i < xs.length := by simpa using hi
      have hj' : j < xs.length := by simpa using hj
      exact (set_set_perm xs i j hi' hj').cons x

/-- A `listSwap` at in-range positions is a permutation. -/
theorem listSwap_perm {α : Type} (l : List α) (i j : Nat)
    (hi : i < l.length) (hj : j < l.length) :
    List.Perm (listSwap l i j) l := by
  have h1 : l.get? i = some (l.get ⟨i, hi⟩) := List.get?_eq_get hi
  have h2 : l.get? j = some (l.get ⟨j, hj⟩) := List.get?_eq_get hj
  unfold listSwap
  rw [h1, h2]
  exact set_set_perm l i j hi hj

/-- `listSwap` preserves length. -/
theorem listSwap_length {α : Type} (l : List α) (i j : Nat) :
    (listSwap l i j).length = l.length := by
  unfold listSwap
  cases h1 : l.get? i <;> cases h2 : l.get? j <;> simp

/-- Every pass of the Fisher-Yates loop yields a permutation, provided
each drawn index `js i` is at most `i` (which
`Math.floor(Math.random() * (i + 1))` guarantees). -/
theorem shuffleLoop_perm {α : Type} (js : Nat → Nat) (h : ∀ k, js k ≤ k) :
    ∀ (i : Nat) (arr : List α), i < arr.length →
      List.Perm (shuffleLoop js i arr) arr := by
  intro i
  induction i with
  | zero => intro arr _; exact List.Perm.refl _
  | succ i ih =>
      intro arr hlt
      have hjlt : js (i + 1) < arr.length := lt_of_le_of_lt (h (i + 1)) hlt
      have hswap := listSwap_perm arr (i + 1) (js (i + 1)) hlt hjlt
      have hlen := listSwap_length arr (i + 1) (js (i + 1))
      have ih' := ih (listSwap arr (i + 1) (js (i + 1))) (by rw [hlen]; omega)
      exact ih'.trans hswap

/-- C1 (amended): `startTask` never guards on an open task — for every
`DataManager` state (open task or not) it overwrites `currentTask` with
a fresh in-progress result whose trial list is empty, and the already
recorded session data is untouched, so an open task's trials are
discarded rather than preserved or closed into the session. -/
theorem startTask_overwrites_open_task (now : ℤ) (dm : DataManager)
    (taskId taskType : String) (font : Option String) :
    (DataManager.startTask now dm taskId taskType font).currentTask =
        some ({ taskId := taskId, taskType := taskType,
                font := jsOr font "standard", startTime := now, endTime := none,
                trials := [], summary := none } : TaskState)
      ∧ (DataManager.startTask now dm taskId taskType font).sessionData =
        dm.sessionData :=
  ⟨rfl, rfl⟩

/-- C1 counterexample: in the reachable state `dmOpenOne` the open task
has one recorded trial; calling `startTask` does not leave it unchanged
(it is replaced by a fresh task with no trials), refuting the claim that
`startTask` is a no-op while a task is open. -/
theorem startTask_not_noop_cex :
    dmOpenOne.currentTask.map (fun ct => ct.trials.length) = some 1
    ∧ (DataManager.startTask 30 dmOpenOne "phoneme_grapheme" "phoneme_grapheme"
          none).currentTask.map (fun ct => ct.trials.length) = some 0 := by
  decide

/-- C6 (amended): the confusion map is keyed by the ordered string
`target ++ "->" ++ selected`: recording an incorrect non-timeout
response increments exactly that ordered key and leaves every other key
(in particular the mirrored `selected ++ "->" ++ target` key, whenever
the two strings differ) unchanged. -/
theorem confusion_key_is_ordered (now : ℤ) (dm : DataManager) (td : TrialData)
    (s : String) (hopen : dm.currentTask.isSome = true) (hne : s ≠ td.target) :
    getCount (DataManager.recordResponse now dm td (some s)
        false).sessionData.confusionMatrix (td.target ++ "->" ++ s)
      = getCount dm.sessionData.confusionMatrix (td.target ++ "->" ++ s) + 1
    ∧ ∀ k : String, k ≠ td.target ++ "->" ++ s →
        getCount (DataManager.recordResponse now dm td (some s)
            false).sessionData.confusionMatrix k
          = getCount dm.sessionData.confusionMatrix k := by
  obtain ⟨ct, hct⟩ := Option.isSome_iff_exists.mp hopen
  constructor
  · simp [DataManager.recordResponse, hct, mkTrial, hne, getCount_bumpKey_self]
  · intro k hk
    simp [DataManager.recordResponse, hct, mkTrial, hne,
      getCount_bumpKey_other _ _ _ hk]

/-- C6 counterexample: in the reachable state `dmMirrorPair`, the
response pair (target `b`, selected `d`) and (target `d`, selected `b`)
produced two distinct confusion entries of count `1` each — no entry
reached `2`, refuting the unordered-key claim. -/
theorem confusion_mirror_pair_cex :
    dmMirrorPair.sessionData.confusionMatrix = [("b->d", 1), ("d->b", 1)]
    ∧ getCount dmMirrorPair.sessionData.confusionMatrix "b->d" = 1
    ∧ getCount dmMirrorPair.sessionData.confusionMatrix "d->b" = 1 := by
  decide

/-- Witness for C6's theorem at the concrete mirrored response. -/
theorem confusion_key_is_ordered_witness :
    getCount (DataManager.recordResponse 4 dmMirrorPairPre
        { trialIndex := 1, target := "d", distractors := ["b", "q", "p"], presentedAt := 3 }
        (some "b") false).sessionData.confusionMatrix ("d" ++ "->" ++ "b")
      = getCount dmMirrorPairPre.sessionData.confusionMatrix ("d" ++ "->" ++ "b") + 1 :=
  (confusion_key_is_ordered 4 dmMirrorPairPre
    { trialIndex := 1, target := "d", distractors := ["b", "q", "p"], presentedAt := 3 }
    "b" (by decide) (by decide)).1

/-- C4: while the response window is open (`inputLocked = false`), the
first selection or timeout event re-locks input, and once input is
locked any further selection or timeout event is the identity on the
engine state — in particular the recorded `TrialRecord` is not altered
and no second record is appended to the open task. -/
theorem input_lock_idempotent (now now2 : ℤ) (selected selected2 : String)
    (st : EngineState) (h : st.inputLocked = false) :
    ((GameEngine.handleResponse now selected st).inputLocked = true
      ∧ GameEngine.handleResponse now2 selected2
          (GameEngine.handleResponse now selected st)
          = GameEngine.handleResponse now selected st
      ∧ GameEngine.handleTimeout now2 (GameEngine.handleResponse now selected st)
          = GameEngine.handleResponse now selected st)
    ∧ ((GameEngine.handleTimeout now st).inputLocked = true
      ∧ GameEngine.handleResponse now2 selected2 (GameEngine.handleTimeout now st)
          = GameEngine.handleTimeout now st
      ∧ GameEngine.handleTimeout now2 (GameEngine.handleTimeout now st)
          = GameEngine.handleTimeout now st) := by
  have h1 : (GameEngine.handleResponse now selected st).inputLocked = true := by
    simp [GameEngine.handleResponse, h]
  have h2 : (GameEngine.handleTimeout now st).inputLocked = true := by
    simp [GameEngine.handleTimeout, h]
  exact ⟨⟨h1, (handle_locked_id now2 selected2 _ h1).1,
          (handle_locked_id now2 selected2 _ h1).2⟩,
         ⟨h2, (handle_locked_id now2 selected2 _ h2).1,
          (handle_locked_id now2 selected2 _ h2).2⟩⟩

/-- Witness for C4 at the initial (unlocked) engine state: a second
selection after the first is ignored. -/
theorem input_lock_idempotent_witness :
    GameEngine.handleResponse 6 "p" (GameEngine.handleResponse 5 "d" GameEngine.init)
      = GameEngine.handleResponse 5 "d" GameEngine.init :=
  ((input_lock_idempotent 5 6 "d" "p" GameEngine.init rfl).1).2.1

/-- C10: `shuffleArray` returns a permutation of its input (same length
and multiset of elements, so the target always remains among the
rendered options), for every random draw sequence in range; the input
list itself is untouched, which the embedding makes automatic because
the source copies the array before swapping in place. -/
theorem shuffleArray_perm {α : Type} (js : Nat → Nat) (h : ∀ k, js k ≤ k)
    (array : List α) :
    List.Perm (shuffleArray js array) array := by
  cases array with
  | nil => exact List.Perm.refl _
  | cons x xs => exact shuffleLoop_perm js h xs.length (x :: xs) (by simp)

/-- Witness for C10 on a concrete option list with the draw oracle that
always picks index `0`. -/
theorem shuffleArray_perm_witness :
    List.Perm (shuffleArray (fun _ => 0) ["b", "d", "p"]) ["b", "d", "p"] :=
  shuffleArray_perm (fun _ => 0) (fun k => Nat.zero_le k) ["b", "d", "p"]

/-- C2 (amended): `runTrial` installs no exception handler, so when the
per-type presentation step raises, the exception propagates out of
`runTrial` as a rejection: no state results, hence the trial is recorded
neither as a response nor as a forced timeout, and the loop does not
advance past it. -/
theorem runTrial_exception_propagates (now : ℤ) (e : String) (st : EngineState)
    (h : st.currentTrialIndex < st.taskTrialCount) :
    GameEngine.runTrial now (PresentOutcome.threw e) st = Except.error e := by
  simp [GameEngine.runTrial, Nat.not_le.mpr h]

/-- C2 counterexample: with three trials pending and the presentation
step raising a rendering exception, `runTrial` evaluates to the
propagated rejection rather than to a state in which the trial was
recorded as a forced timeout — refuting the claim that the exception is
caught and converted. -/
theorem runTrial_exception_cex :
    GameEngine.runTrial 0 (PresentOutcome.threw "DOMException")
        { GameEngine.init with taskTrialCount := 3 }
      = Except.error "DOMException" := by
  simp [GameEngine.runTrial, GameEngine.init]

/-- Witness for C2's theorem at a concrete mid-task state. -/
theorem runTrial_exception_witness :
    GameEngine.runTrial 7 (PresentOutcome.threw "RenderError")
        { GameEngine.init with taskTrialCount := 5, currentTrialIndex := 1 }
      = Except.error "RenderError" :=
  runTrial_exception_propagates 7 "RenderError"
    { GameEngine.init with taskTrialCount := 5, currentTrialIndex := 1 }
    (by decide)

/-- C3 (amended): the wait on the speech promise is unbounded — the
phoneme-grapheme trial gets to render its options exactly when the
promise settles (either callback, `onend` or `onerror`, resolves it, so
speech errors do not block); in an execution where neither callback ever
fires, nothing after the `await` runs and the options are never
rendered. -/
theorem phoneme_options_iff_speech_settles (ev : Option SpeechEvent) (now : ℤ)
    (js : Nat → Nat) (target : String) (distractors : List String) (index : Nat)
    (dm : DataManager) :
    GameEngine.runPhonemeGraphemeTrial ev now js target distractors index dm = none
      ↔ ev = none := by
  cases ev <;>
    simp [GameEngine.runPhonemeGraphemeTrial, AudioManager.speakResult]

/-- C3 counterexample: in the execution where the speak promise never
settles, the trial evaluates to `none` — its options are never rendered
and the session stalls — refuting the claim that the wait is bounded by
a maximum wait ceiling. -/
theorem phoneme_never_renders_cex :
    GameEngine.runPhonemeGraphemeTrial none 0 (fun _ => 0) "b" ["d", "p"] 0
        DataManager.init = none :=
  rfl

/-- Witness for C3's theorem at a concrete never-settling execution. -/
theorem phoneme_options_iff_speech_settles_witness :
    GameEngine.runPhonemeGraphemeTrial none 1 (fun _ => 0) "d" ["b", "t"] 0
        DataManager.init = none :=
  (phoneme_options_iff_speech_settles none 1 (fun _ => 0) "d" ["b", "t"] 0
    DataManager.init).mpr rfl

/-- One engine event preserves the warmup flag and, while it is set,
the recorded session data and the open-task slot: `startTrial` touches
only `itemStartTime`, and response/timeout recording is guarded by the
warmup check (game.js:300, game.js:315). -/
theorem step_warmup (st : EngineState) (ev : EngineEvent)
    (h : st.currentTaskIsWarmup = true) :
    (GameEngine.step st ev).currentTaskIsWarmup = true
    ∧ (GameEngine.step st ev).dm.sessionData = st.dm.sessionData
    ∧ (GameEngine.step st ev).dm.currentTask = st.dm.currentTask := by
  cases ev with
  | present now target ds =>
      simp [GameEngine.step, GameEngine.presentStep, DataManager.startTrial, h]
  | response now selected =>
      by_cases hl : st.inputLocked = true <;>
        simp [GameEngine.step, GameEngine.handleResponse, hl, h]
  | timeout now =>
      by_cases hl : st.inputLocked = true <;>
        simp [GameEngine.step, GameEngine.handleTimeout, hl, h]
  | transition => simp [GameEngine.step, h]

/-- Any event sequence preserves the warmup flag, the session data and
the open-task slot while the warmup flag is set. -/
theorem runEvents_warmup (evs : List EngineEvent) :
    ∀ st : EngineState, st.currentTaskIsWarmup = true →
      (GameEngine.runEvents st evs).currentTaskIsWarmup = true
      ∧ (GameEngine.runEvents st evs).dm.sessionData = st.dm.sessionData
      ∧ (GameEngine.runEvents st evs).dm.currentTask = st.dm.currentTask := by
  induction evs with
  | nil => intro st h; exact ⟨h, rfl, rfl⟩
  | cons ev evs ih =>
      intro st h
      obtain ⟨h1, h2, h3⟩ := step_warmup st ev h
      obtain ⟨g1, g2, g3⟩ := ih (GameEngine.step st ev) h1
      exact ⟨g1, g2.trans h2, g3.trans h3⟩

/-- C9: running a task flagged as excluded from scoring (`isWarmup`)
from `startTask` through any sequence of presentations, responses,
timeouts and transitions to `completeTask` leaves the Aggregator's
session data (closed tasks list and confusion map) and its open-task
slot exactly as they were: no `TaskResult` is opened or closed, no
response or timeout is recorded, so excluded tasks never appear in the
session's tasks list and contribute no trial records and no
confusion-map entries. -/
theorem warmup_contributes_nothing (now0 nowE : ℤ) (taskId taskType : String)
    (trialCount : Nat) (st : EngineState) (evs : List EngineEvent) :
    (GameEngine.completeTask nowE
        (GameEngine.runEvents
          (GameEngine.startTask now0 true taskId taskType trialCount st)
          evs)).dm.sessionData = st.dm.sessionData
    ∧ (GameEngine.completeTask nowE
        (GameEngine.runEvents
          (GameEngine.startTask now0 true taskId taskType trialCount st)
          evs)).dm.currentTask = st.dm.currentTask := by
  have hst : (GameEngine.startTask now0 true taskId taskType trialCount
      st).currentTaskIsWarmup = true := rfl
  obtain ⟨h1, h2, h3⟩ := runEvents_warmup evs _ hst
  constructor
  · simp only [GameEngine.completeTask, h1, if_true]
    exact h2
  · simp only [GameEngine.completeTask, h1, if_true]
    exact h3

/-- Filtering with a stronger predicate keeps at most as many elements. -/
theorem length_filter_mono {α : Type} (l : List α) (p q : α → Bool)
    (h : ∀ t ∈ l, p t = true → q t = true) :
    (l.filter p).length ≤ (l.filter q).length := by
  induction l with
  | nil => simp
  | cons a l ih =>
      have ih' := ih fun t ht hp => h t (List.mem_cons_of_mem a ht) hp
      cases hp : p a with
      | true =>
          have hq := h a (List.mem_cons_self a l) hp
          simp only [List.filter_cons, hp, hq, if_true, List.length_cons]
          omega
      | false =>
          cases hq : q a <;>
            simp only [List.filter_cons, hp, hq, if_true, if_false,
              Bool.false_eq_true, List.length_cons] <;> omega

/-- One well-shaped Aggregator call keeps the open-task slot occupied
and keeps every recorded trial `trialOk` (a timeout record carries the
null sentinel, hence is never correct). -/
theorem applyEvent_ok (dm : DataManager) (e : AggEvent) (he : eventOk e = true)
    (ct : TaskState) (h : dm.currentTask = some ct)
    (hts : ∀ t ∈ ct.trials, trialOk t = true) :
    ∃ ct', (DataManager.applyEvent dm e).currentTask = some ct'
      ∧ ∀ t ∈ ct'.trials, trialOk t = true := by
  cases e with
  | pres now target ds index =>
      exact ⟨ct, by simp [DataManager.applyEvent, DataManager.startTrial, h], hts⟩
  | record now td selected wasTimeout =>
      refine ⟨{ ct with trials :=
          ct.trials ++ [mkTrial now dm.itemStartTime td selected wasTimeout] },
        ?_, ?_⟩
      · simp [DataManager.applyEvent, DataManager.recordResponse, h]
      · intro t ht
        rcases List.mem_append.mp ht with hmem | hmem
        · exact hts t hmem
        · have heq : t = mkTrial now dm.itemStartTime td selected wasTimeout := by
            simpa using hmem
          subst heq
          cases hwt : wasTimeout with
          | false => simp [trialOk, mkTrial]
          | true =>
              have hsel : selected = none := by
                simpa [eventOk, hwt] using he
              simp [trialOk, mkTrial, hsel]

/-- Any sequence of well-shaped Aggregator calls keeps the open-task
slot occupied and all recorded trials `trialOk`. -/
theorem applyEvents_ok (evs : List AggEvent) :
    ∀ dm : DataManager, (∀ e ∈ evs, eventOk e = true) →
      ∀ ct : TaskState, dm.currentTask = some ct →
        (∀ t ∈ ct.trials, trialOk t = true) →
        ∃ ct', (DataManager.applyEvents dm evs).currentTask = some ct'
          ∧ ∀ t ∈ ct'.trials, trialOk t = true := by
  induction evs with
  | nil => intro dm _ ct h hts; exact ⟨ct, h, hts⟩
  | cons e evs ih =>
      intro dm hok ct h hts
      obtain ⟨ct1, h1, hts1⟩ := applyEvent_ok dm e (hok e (by simp)) ct h hts
      exact ih (DataManager.applyEvent dm e)
        (fun e2 he2 => hok e2 (by simp [he2])) ct1 h1 hts1

/-- Arithmetic facts about the accuracy expression
`completed > 0 ? correct / completed * 100 : 0` when
`correct ≤ completed`. -/
theorem accuracy_props (c n : Nat) (hcn : c ≤ n) :
    (n = 0 → (if 0 < n then ((c : ℚ) / (n : ℚ)) * 100 else 0) = 0)
    ∧ (0 < n → (if 0 < n then ((c : ℚ) / (n : ℚ)) * 100 else 0)
        = (c : ℚ) / (n : ℚ) * 100)
    ∧ 0 ≤ (if 0 < n then ((c : ℚ) / (n : ℚ)) * 100 else 0)
    ∧ (if 0 < n then ((c : ℚ) / (n : ℚ)) * 100 else 0) ≤ 100 := by
  by_cases hn : 0 < n
  · have hn0 : (0 : ℚ) < (n : ℚ) := by exact_mod_cast hn
    have hdiv : (c : ℚ) / (n : ℚ) ≤ 1 := by
      rw [div_le_one hn0]; exact_mod_cast hcn
    refine ⟨fun h0 => absurd h0 (by omega), fun _ => by rw [if_pos hn], ?_, ?_⟩
    · rw [if_pos hn]; positivity
    · rw [if_pos hn]
      have h100 : (c : ℚ) / (n : ℚ) * 100 ≤ 1 * 100 :=
        mul_le_mul_of_nonneg_right hdiv (by norm_num)
      linarith
  · refine ⟨fun _ => by rw [if_neg hn], fun h => absurd h hn, ?_, ?_⟩
    · rw [if_neg hn]
    · rw [if_neg hn]; norm_num

/-- The frozen summary of a task all of whose trials are `trialOk`
satisfies the claimed accuracy laws. -/
theorem taskSummary_accuracy (now : ℤ) (ct : TaskState)
    (hts : ∀ t ∈ ct.trials, trialOk t = true) :
    (DataManager.taskSummary now ct).correctCount
        ≤ (DataManager.taskSummary now ct).completedTrials
    ∧ ((DataManager.taskSummary now ct).completedTrials = 0 →
        (DataManager.taskSummary now ct).accuracy = 0)
    ∧ (0 < (DataManager.taskSummary now ct).completedTrials →
        (DataManager.taskSummary now ct).accuracy
          = ((DataManager.taskSummary now ct).correctCount : ℚ)
              / ((DataManager.taskSummary now ct).completedTrials : ℚ) * 100)
    ∧ 0 ≤ (DataManager.taskSummary now ct).accuracy
    ∧ (DataManager.taskSummary now ct).accuracy ≤ 100 := by
  have himp : ∀ t ∈ ct.trials, (fun t : Trial => t.isCorrect) t = true →
      (fun t : Trial => !t.wasTimeout) t = true := by
    intro t ht hic
    have hok := hts t ht
    simp only [trialOk, hic, Bool.not_true, Bool.false_or] at hok
    simpa using hok
  have hcc : (ct.trials.filter fun t => t.isCorrect).length
      ≤ (ct.trials.filter fun t => !t.wasTimeout).length :=
    length_filter_mono ct.trials _ _ himp
  have hprops := accuracy_props (ct.trials.filter fun t => t.isCorrect).length
    (ct.trials.filter fun t => !t.wasTimeout).length hcc
  have hcompleted : (DataManager.taskSummary now ct).completedTrials
      = (ct.trials.filter fun t => !t.wasTimeout).length := rfl
  have hcorrect : (DataManager.taskSummary now ct).correctCount
      = (ct.trials.filter fun t => t.isCorrect).length := rfl
  have hacc : (DataManager.taskSummary now ct).accuracy
      = (if 0 < (ct.trials.filter fun t => !t.wasTimeout).length then
           (((ct.trials.filter fun t => t.isCorrect).length : ℚ)
             / ((ct.trials.filter fun t => !t.wasTimeout).length : ℚ)) * 100
         else 0) := rfl
  rw [hcompleted, hcorrect, hacc]
  exact ⟨hcc, hprops.1, hprops.2.1, hprops.2.2.1, hprops.2.2.2⟩

/-- C8: for every task opened by the Orchestrator and driven by any
well-shaped call sequence (timeouts recorded with the null sentinel, as
`handleTimeout` does — targets are strings, hence non-null, by
construction of the embedding), closing the task appends a `TaskResult`
whose frozen summary satisfies: every correct trial is a completed
(non-timeout) trial, so `correctCount ≤ completedTrials`; `accuracy`
equals `correctCount / completedTrials * 100`, is `0` when
`completedTrials = 0`, and always lies in `[0, 100]`. -/
theorem endTask_accuracy_bounds (dm0 : DataManager) (now0 nowE : ℤ)
    (taskId taskType : String) (font : Option String) (evs : List AggEvent)
    (hok : ∀ e ∈ evs, eventOk e = true) :
    ∃ ts s,
      (DataManager.endTask nowE
          (DataManager.applyEvents
            (DataManager.startTask now0 dm0 taskId taskType font) evs)).sessionData.tasks
        = (DataManager.applyEvents
            (DataManager.startTask now0 dm0 taskId taskType font) evs).sessionData.tasks
          ++ [ts]
      ∧ ts.summary = some s
      ∧ s.correctCount ≤ s.completedTrials
      ∧ (s.completedTrials = 0 → s.accuracy = 0)
      ∧ (0 < s.completedTrials →
          s.accuracy = (s.correctCount : ℚ) / (s.completedTrials : ℚ) * 100)
      ∧ 0 ≤ s.accuracy ∧ s.accuracy ≤ 100 := by
  have hstart : (DataManager.startTask now0 dm0 taskId taskType font).currentTask
      = some ({ taskId := taskId, taskType := taskType,
                font := jsOr font "standard", startTime := now0, endTime := none,
                trials := [], summary := none } : TaskState) := rfl
  obtain ⟨ct', hct', hts'⟩ := applyEvents_ok evs _ hok _ hstart (by simp)
  obtain ⟨h1, h2, h3, h4, h5⟩ := taskSummary_accuracy nowE ct' hts'
  refine ⟨{ ct' with
              endTime := some nowE,
              summary := some (DataManager.taskSummary nowE ct') },
    DataManager.taskSummary nowE ct', ?_, rfl, h1, h2, h3, h4, h5⟩
  simp [DataManager.endTask, hct']

/-- Witness for C8 on the spec's end-to-end scenario: a three-trial task
answered (correct, timeout, incorrect). -/
theorem endTask_accuracy_bounds_witness :
    (DataManager.endTask 60
        (DataManager.applyEvents
          (DataManager.startTask 0 DataManager.init "baseline_literacy"
            "baseline_literacy" none) evsThree)).sessionData.tasks.length = 1 := by
  obtain ⟨ts, s, htasks, _⟩ := endTask_accuracy_bounds DataManager.init 0 60
    "baseline_literacy" "baseline_literacy" none evsThree (by decide)
  have hlen : (DataManager.applyEvents
      (DataManager.startTask 0 DataManager.init "baseline_literacy"
        "baseline_literacy" none) evsThree).sessionData.tasks.length = 0 := by decide
  rw [htasks]
  simp [hlen]

/-- C7 (amended): in the CSV detail log, the Selected column shows the
literal TIMEOUT exactly when the recorded selected value is falsy (the
null timeout sentinel, or an empty string), and the RT column shows the
literal N/A exactly when the recorded reaction time is falsy (null — a
timeout — or a recorded reaction time of `0` ms, which is rendered as
N/A rather than as `0`); every other recorded value is shown as
recorded. -/
theorem csv_detail_falsy_cells (t : Trial) (taskIndex trialIndex : Nat) :
    (detailRow taskIndex trialIndex t).get? 3 = some (selectedCell t)
    ∧ (detailRow taskIndex trialIndex t).get? 5 = some (rtCell t)
    ∧ (rtCell t = Cell.str "N/A" ↔
        (t.reactionTime = none ∨ t.reactionTime = some 0))
    ∧ (t.selected = none ∨ t.selected = some "" →
        selectedCell t = Cell.str "TIMEOUT")
    ∧ (∀ z : ℤ, t.reactionTime = some z → z ≠ 0 → rtCell t = Cell.num z)
    ∧ (∀ s : String, t.selected = some s → s ≠ "" →
        selectedCell t = Cell.str s) := by
  refine ⟨rfl, rfl, ?_, ?_, ?_, ?_⟩
  · cases h : t.reactionTime with
    | none => simp [rtCell, h]
    | some z => by_cases hz : z = 0 <;> simp [rtCell, h, hz]
  · rintro (h | h) <;> simp [selectedCell, h]
  · intro z hz hz0; simp [rtCell, hz, hz0]
  · intro s hs hs0; simp [selectedCell, hs, hs0]

/-- C7 counterexample: in the reachable session `dmZeroRT` the single
trial was completed (timeout flag false) with a recorded reaction time
of `0` ms, yet its detail row shows the literal N/A in the RT column, so
the export does not show the recorded reaction time. -/
theorem csv_zero_rt_cex :
    detailRows dmZeroRT.sessionData =
      [[Cell.num 1, Cell.num 1, Cell.str "b", Cell.str "b", Cell.bool true,
        Cell.str "N/A", Cell.bool false]] := by decide

/-- Witness for C7 at a completed trial with a nonzero reaction time. -/
theorem csv_detail_falsy_cells_witness :
    rtCell { trialIndex := 0, target := "b", distractors := ["d"], presentedAt := 0,
             selected := some "b", isCorrect := true, reactionTime := some 350,
             wasTimeout := false, respondedAt := 350 } = Cell.num 350 :=
  (csv_detail_falsy_cells _ 0 0).2.2.2.2.1 350 rfl (by decide)

/-- C5 (amended): over the pooled reaction times `r` of the completed
trials of the whole session, the coefficient of variation is null
exactly when `r` is empty; with exactly one sample of nonzero value it
is `0` — not null — because the null `stdDev` of a single sample coerces
to `0` in the division; and with at least two samples and a nonzero mean
it equals `stdDev r / mean r * 100`.  With at least one sample it is
never null (a zero mean yields NaN or Infinity instead of null). -/
theorem cov_cases (sd : SessionData) :
    (pooledRTsQ sd = [] →
      (DataManager.calculateAttentionStability sd).coefficientOfVariation = none)
    ∧ (pooledRTsQ sd ≠ [] →
      (DataManager.calculateAttentionStability sd).coefficientOfVariation ≠ none)
    ∧ ((pooledRTsQ sd).length = 1 → mean (pooledRTsQ sd) ≠ 0 →
      (DataManager.calculateAttentionStability sd).coefficientOfVariation
        = some (JsNum.num 0))
    ∧ (2 ≤ (pooledRTsQ sd).length → mean (pooledRTsQ sd) ≠ 0 →
      (DataManager.calculateAttentionStability sd).coefficientOfVariation
        = some (JsNum.num
            (Real.sqrt ((mean ((pooledRTsQ sd).map fun v =>
                (v - mean (pooledRTsQ sd)) ^ 2) : ℚ) : ℝ)
              / ((mean (pooledRTsQ sd) : ℚ) : ℝ) * 100))) := by
  refine ⟨?_, ?_, ?_, ?_⟩
  · intro h
    simp [DataManager.calculateAttentionStability, h]
  · intro h
    have hl : 0 < (pooledRTsQ sd).length := List.length_pos.mpr h
    simp [DataManager.calculateAttentionStability, hl]
  · intro h1 hm
    have hl : 0 < (pooledRTsQ sd).length := by omega
    have hsd : stdDev (pooledRTsQ sd) = none := by simp [stdDev, h1]
    have hcast : ((mean (pooledRTsQ sd) : ℚ) : ℝ) ≠ 0 := by exact_mod_cast hm
    simp [DataManager.calculateAttentionStability, hl, hsd, jsDivNullable,
      hcast, jsMul100]
  · intro h2 hm
    have hl : 0 < (pooledRTsQ sd).length := by omega
    have hnlt : ¬ (pooledRTsQ sd).length < 2 := by omega
    have hcast : ((mean (pooledRTsQ sd) : ℚ) : ℝ) ≠ 0 := by exact_mod_cast hm
    simp [DataManager.calculateAttentionStability, hl, stdDev, hnlt,
      jsDivNullable, hcast, jsMul100]

/-- C5 counterexample: the reachable session `dmOneSample` pools exactly
one reaction time (`500` ms), for which the claim requires a null
coefficient of variation; the code instead produces `0`, since the null
standard deviation coerces to `0` in the division. -/
theorem cov_single_sample_cex :
    (DataManager.calculateAttentionStability
        dmOneSample.sessionData).coefficientOfVariation = some (JsNum.num 0)
    ∧ (DataManager.calculateAttentionStability
        dmOneSample.sessionData).coefficientOfVariation ≠ none := by
  have hp : pooledRTsQ dmOneSample.sessionData = [500] := by
    have h : pooledRTs dmOneSample.sessionData = [500] := by decide
    simp [pooledRTsQ, h]
  have hsd : stdDev [(500 : ℚ)] = none := by simp [stdDev]
  have heq : (DataManager.calculateAttentionStability
      dmOneSample.sessionData).coefficientOfVariation = some (JsNum.num 0) := by
    simp [DataManager.calculateAttentionStability, hp, hsd, jsDivNullable,
      jsMul100, mean]
  exact ⟨heq, by rw [heq]; simp⟩

/-- Witness for C5 at a session pooling reaction times 100 and 300:
`stdDev = 100`, `mean = 200`, so the coefficient of variation is 50. -/
theorem cov_cases_witness :
    (DataManager.calculateAttentionStability
        sdTwoSamples).coefficientOfVariation = some (JsNum.num 50) := by
  have hp : pooledRTsQ sdTwoSamples = [100, 300] := by
    have h : pooledRTs sdTwoSamples = [100, 300] := by decide
    simp [pooledRTsQ, h]
  have hm : mean [(100 : ℚ), 300] = 200 := by
    simp [mean]; norm_num
  have h := (cov_cases sdTwoSamples).2.2.2 (by rw [hp]; decide)
    (by rw [hp, hm]; norm_num)
  rw [h, hp, hm]
  have hsq : mean ([(100 : ℚ), 300].map fun v => (v - 200) ^ 2) = 10000 := by
    simp [mean]; norm_num
  rw [hsq]
  have hs : Real.sqrt ((10000 : ℚ) : ℝ) = 100 := by
    have h1 : ((10000 : ℚ) : ℝ) = (100 : ℝ) ^ 2 := by norm_num
    rw [h1, Real.sqrt_sq (by norm_num : (0 : ℝ) ≤ 100)]
  rw [hs]
  norm_num

end Lexiscan
